import Mathlib

/-!
Verification of `trae_agent/tools/report_locs.py` (the single source file of
the repository): the `report_locs` tool, which validates a batch of location
reports and forwards it as one JSON POST request to a configured endpoint.

The embedding models the Python values the tool manipulates, pydantic
validation of `LocReports`, the environment lookup, the URL construction,
the payload construction via `model_dump`, the JSON-serializability rules of
the standard `json.dumps` encoder used by `httpx` for `json=` bodies, and
the tool's exception handling, as written in the source.
-/

/-- A Python runtime value, covering everything that can appear in the
tool-call arguments (JSON-shaped data) plus `pathlib.Path` objects, which
pydantic produces when validating a field annotated `Path`. -/
inductive PyVal where
  | none
  | bool (b : Bool)
  | int (n : Int)
  | str (s : String)
  | list (xs : List PyVal)
  | dict (fields : List (String × PyVal))
  | path (p : String)
deriving Repr

/-- Python truthiness (`bool(v)`): `None`, `False`, `0`, `""`, `[]`, `{}`
are falsy; `pathlib.Path` objects are always truthy. -/
def PyVal.falsy : PyVal → Bool
  | .none => true
  | .bool b => !b
  | .int n => n == 0
  | .str s => s.isEmpty
  | .list xs => xs.isEmpty
  | .dict fs => fs.isEmpty
  | .path _ => false

/-- Lookup in a Python dict modelled as an association list. -/
def dictLookup (fs : List (String × PyVal)) (key : String) : Option PyVal :=
  match fs.find? (fun kv => kv.1 == key) with
  | some kv => some kv.2
  | Option.none => Option.none

/-- The arguments mapping handed to `Tool.execute`. -/
def ToolCallArguments := List (String × PyVal)

/-- `arguments.get(key)` without default. -/
def argsLookup (args : ToolCallArguments) (key : String) : Option PyVal :=
  match args.find? (fun kv => kv.1 == key) with
  | some kv => some kv.2
  | Option.none => Option.none

/-- `arguments.get(key, default)`: the stored value when the key is present
(even if that value is `None`), the default otherwise. -/
def argsGet (args : ToolCallArguments) (key : String) (dflt : PyVal) : PyVal :=
  match argsLookup args key with
  | some v => v
  | Option.none => dflt

/-- `class LocReport(BaseModel)`: a validated report.  `rel_file_path` is
annotated `pathlib.Path` in the source; after validation it holds a `Path`
object, represented here by its underlying string. -/
structure LocReport where
  rel_file_path : String
  func_name : String
deriving Repr, DecidableEq

/-- pydantic validation of the `rel_file_path: Path` field (lax mode):
a `str` or a `Path` is accepted and becomes a `Path`; every other runtime
value is rejected. -/
def validatePathField : PyVal → Option String
  | .str s => some s
  | .path p => some p
  | _ => Option.none

/-- pydantic validation of the `func_name: str` field (lax mode): only a
`str` is accepted; numbers, booleans and `None` are not coerced. -/
def validateStrField : PyVal → Option String
  | .str s => some s
  | _ => Option.none

/-- pydantic validation of one batch element against `LocReport`: it must be
a mapping carrying both fields with validating values; extra keys are
ignored (pydantic's default). -/
def validateReport : PyVal → Option LocReport
  | .dict fs =>
      match dictLookup fs "rel_file_path", dictLookup fs "func_name" with
      | some rp, some fn =>
          match validatePathField rp, validateStrField fn with
          | some p, some s => some ⟨p, s⟩
          | _, _ => Option.none
      | _, _ => Option.none
  | _ => Option.none

/-- pydantic validation of `list[LocReport]`: element-wise, in order; any
failing element fails the whole list. -/
def validateList : List PyVal → Option (List LocReport)
  | [] => some []
  | x :: xs =>
      match validateReport x, validateList xs with
      | some r, some rs => some (r :: rs)
      | _, _ => Option.none

/-- `class LocReports(RootModel)` with `root: list[LocReport]`. -/
structure LocReports where
  root : List LocReport
deriving Repr, DecidableEq

/-- `LocReports.model_validate(data)`: the input must be a sequence whose
elements all validate as `LocReport`; anything else raises
`pydantic.ValidationError`, modelled by `Option.none`. -/
def LocReports.model_validate : PyVal → Option LocReports
  | .list xs =>
      match validateList xs with
      | some rs => some ⟨rs⟩
      | Option.none => Option.none
  | _ => Option.none

/-- `report.model_dump()` (python mode): the `rel_file_path` field stays a
`pathlib.Path` object — it is not converted to a string. -/
def LocReport.model_dump (r : LocReport) : PyVal :=
  PyVal.dict [("rel_file_path", PyVal.path r.rel_file_path),
              ("func_name", PyVal.str r.func_name)]

mutual

/-- Whether the standard-library `json.dumps` default encoder (which `httpx`
uses for `json=` request bodies) can serialize the value: `Path` objects
cannot be serialized and raise `TypeError`. -/
def PyVal.jsonSerializable : PyVal → Bool
  | .none => true
  | .bool _ => true
  | .int _ => true
  | .str _ => true
  | .list xs => jsonSerializableList xs
  | .dict fs => jsonSerializableFields fs
  | .path _ => false

def jsonSerializableList : List PyVal → Bool
  | [] => true
  | x :: xs => x.jsonSerializable && jsonSerializableList xs

def jsonSerializableFields : List (String × PyVal) → Bool
  | [] => true
  | (_, v) :: fs => v.jsonSerializable && jsonSerializableFields fs

end

/-- `str(TypeError)` raised by `json.dumps` on a `pathlib.Path` value, the
only non-serializable value reachable in this tool. -/
def posixPathTypeErrorMsg : String :=
  "Object of type PosixPath is not JSON serializable"

/-- `base_url.rstrip('/')`: removes every trailing `/` character. -/
def rstripSlash (s : String) : String :=
  String.mk ((s.data.reverse.dropWhile (fun c => c == '/')).reverse)

/-- Line 72 of the source: `url = f"{base_url.rstrip('/')}/report"`. -/
def resolveEndpoint (base_url : String) : String :=
  rstripSlash base_url ++ "/report"

/-- The process environment, read through `os.getenv`. -/
def Env := List (String × String)

/-- `os.getenv(key)`: `None` when the variable is unset. -/
def getenv (env : Env) (key : String) : Option String :=
  match env.find? (fun kv => kv.1 == key) with
  | some kv => some kv.2
  | Option.none => Option.none

/-- The outcome the network produces for one POST request: an HTTP response
with a status code, or a transport-level failure (connection error, timeout,
protocol error) carrying its message. -/
inductive TransportOutcome where
  | status (code : Nat)
  | netError (msg : String)

/-- The opaque transport consulted by `httpx`: the response it yields for a
given request URL and JSON body. -/
def Transport := String → PyVal → TransportOutcome

/-- One outbound POST request that actually reached the transport. -/
structure SentRequest where
  url : String
  body : PyVal
deriving Repr

/-- Modelled from the spec: `ToolExecResult` is declared in
`trae_agent/tools/base.py`, which is not part of the provided sources; the
spec describes it as "a record with either an `output` string (success) or
an `error` string (failure) — never both, always exactly one". -/
inductive ToolExecResult where
  | output (s : String)
  | error (s : String)
deriving Repr, DecidableEq

def ToolExecResult.isOutput : ToolExecResult → Bool
  | .output _ => true
  | .error _ => false

def ToolExecResult.isError : ToolExecResult → Bool
  | .output _ => false
  | .error _ => true

/-- The exceptions the `try` block of `execute` can raise. -/
inductive PyExn where
  | validationError (input : PyVal)
  | typeError (msg : String)
  | httpStatusError (code : Nat) (url : String)
  | httpTransportError (msg : String)

/-- `isinstance(e, httpx.HTTPError)`: status errors raised by
`raise_for_status` and transport-level errors are `httpx.HTTPError`;
`pydantic.ValidationError` and `TypeError` are not. -/
def PyExn.isHTTPError : PyExn → Bool
  | .validationError _ => false
  | .typeError _ => false
  | .httpStatusError _ _ => true
  | .httpTransportError _ => true

/-- `str(pydantic.ValidationError)` for a given input.  The exact wording is
produced inside the pydantic library; the tool only interpolates it into its
error message, and no property proved here depends on this text. -/
def validationErrorMsg (input : PyVal) : String :=
  "validation error for LocReports, input " ++ reprStr input

/-- `str(httpx.HTTPStatusError)` raised by `response.raise_for_status()`.
The exact wording is produced inside the httpx library; no property proved
here depends on this text. -/
def statusErrorMsg (code : Nat) (url : String) : String :=
  "HTTP status error " ++ toString code ++ " for url " ++ url

/-- `str(e)` for the modelled exceptions. -/
def PyExn.msg : PyExn → String
  | .validationError input => validationErrorMsg input
  | .typeError m => m
  | .httpStatusError code url => statusErrorMsg code url
  | .httpTransportError m => m

/-- The world state an invocation runs in: the process environment (read but
never written by the tool) and the log of POST requests that reached the
transport so far. -/
structure World where
  env : Env
  sent : List SentRequest

/-- The `try:` block of `ReportLocsTool.execute` (source lines 62–82), after
the emptiness guard: validate, read `LOC_REPORT_URL`, build the URL and the
payload, and POST it.  Returns the normally-returned result or the raised
exception, together with the list of requests that reached the transport.
`client.post(url, json=data)` first JSON-encodes the body with the standard
encoder: a payload holding a `Path` object raises `TypeError` before any
request is sent; otherwise the transport is consulted and
`raise_for_status()` raises `httpx.HTTPStatusError` on any non-2xx status. -/
def ReportLocsTool.executeTry (loc_reports_data : PyVal) (transport : Transport)
    (env : Env) : Except PyExn ToolExecResult × List SentRequest :=
  match LocReports.model_validate loc_reports_data with
  | Option.none => (Except.error (PyExn.validationError loc_reports_data), [])
  | some loc_reports =>
      match getenv env "LOC_REPORT_URL" with
      | Option.none =>
          (Except.ok (ToolExecResult.error "LOC_REPORT_URL environment variable not set."), [])
      | some base_url =>
          if base_url.isEmpty then
            (Except.ok (ToolExecResult.error "LOC_REPORT_URL environment variable not set."), [])
          else
            let url := resolveEndpoint base_url
            let data := PyVal.dict
              [("loc_reports", PyVal.list (loc_reports.root.map LocReport.model_dump))]
            if data.jsonSerializable then
              match transport url data with
              | TransportOutcome.netError m =>
                  (Except.error (PyExn.httpTransportError m), [⟨url, data⟩])
              | TransportOutcome.status code =>
                  if 200 ≤ code ∧ code ≤ 299 then
                    (Except.ok (ToolExecResult.output "Location reports sent successfully."),
                     [⟨url, data⟩])
                  else
                    (Except.error (PyExn.httpStatusError code url), [⟨url, data⟩])
            else
              (Except.error (PyExn.typeError posixPathTypeErrorMsg), [])

/-- `ReportLocsTool.execute` (source lines 56–87): the emptiness guard, the
`try` block, and the two `except` clauses that turn every raised exception
into an error result.  Returns the result together with the world after the
call (environment unchanged, transport log extended by the requests made). -/
def ReportLocsTool.execute (arguments : ToolCallArguments) (transport : Transport)
    (w : World) : ToolExecResult × World :=
  let loc_reports_data := argsGet arguments "loc_reports" (PyVal.list [])
  if loc_reports_data.falsy then
    (ToolExecResult.error "No location reports provided.", w)
  else
    let pr := ReportLocsTool.executeTry loc_reports_data transport w.env
    let result :=
      match pr.1 with
      | Except.ok r => r
      | Except.error e =>
          if e.isHTTPError then
            ToolExecResult.error ("Failed to send location reports: " ++ e.msg)
          else
            ToolExecResult.error ("Error processing location reports: " ++ e.msg)
    (result, ⟨w.env, w.sent ++ pr.2⟩)

/-! ### Concrete data used by witnesses and counterexamples -/

/-- A well-formed single-report batch value. -/
def goodBatch : PyVal :=
  PyVal.list [PyVal.dict [("rel_file_path", PyVal.str "a.py"),
                          ("func_name", PyVal.str "foo")]]

/-- Arguments carrying `goodBatch` under the `loc_reports` key. -/
def goodArgs : ToolCallArguments := [("loc_reports", goodBatch)]

/-- An environment with `LOC_REPORT_URL` set. -/
def env1 : Env := [("LOC_REPORT_URL", "https://example.test")]

/-- A transport that answers every request with HTTP 200. -/
def okTransport : Transport := fun _ _ => TransportOutcome.status 200

/-- A batch whose single element has an empty `func_name` string. -/
def emptyFuncBatch : PyVal :=
  PyVal.list [PyVal.dict [("rel_file_path", PyVal.str "a.py"),
                          ("func_name", PyVal.str "")]]

/-- A batch whose single element is missing the `func_name` key. -/
def missingFuncBatch : PyVal :=
  PyVal.list [PyVal.dict [("rel_file_path", PyVal.str "a.py")]]

/-! ### Helper lemmas -/

/-- When the `loc_reports` argument resolves to a falsy value, `execute`
returns the empty-input error and leaves the world untouched. -/
theorem execute_of_falsy (args : ToolCallArguments) (t : Transport) (w : World)
    (h : (argsGet args "loc_reports" (PyVal.list [])).falsy = true) :
    ReportLocsTool.execute args t w
      = (ToolExecResult.error "No location reports provided.", w) := by
  unfold ReportLocsTool.execute
  simp [h]

/-- When the `loc_reports` argument resolves to a truthy value, `execute` is
the exception-handled image of the `try` block. -/
theorem execute_of_not_falsy (args : ToolCallArguments) (t : Transport) (w : World)
    (v : PyVal) (hlook : argsGet args "loc_reports" (PyVal.list []) = v)
    (h : v.falsy = false) :
    ReportLocsTool.execute args t w
      = ((match (ReportLocsTool.executeTry v t w.env).1 with
          | Except.ok r => r
          | Except.error e =>
              if e.isHTTPError then
                ToolExecResult.error ("Failed to send location reports: " ++ e.msg)
              else
                ToolExecResult.error ("Error processing location reports: " ++ e.msg)),
         ⟨w.env, w.sent ++ (ReportLocsTool.executeTry v t w.env).2⟩) := by
  unfold ReportLocsTool.execute
  simp [hlook, h]

/-- A single invalid element poisons the whole element-wise validation. -/
theorem validateList_eq_none_of_mem (xs : List PyVal) (e : PyVal)
    (hmem : e ∈ xs) (hbad : validateReport e = Option.none) :
    validateList xs = Option.none := by
  induction xs with
  | nil => cases hmem
  | cons x xs ih =>
      rcases List.mem_cons.mp hmem with h | h
      · subst h
        unfold validateList
        rw [hbad]
      · unfold validateList
        rw [ih h]
        cases validateReport x <;> rfl

/-- Every element accepted as a `LocReport` is a mapping whose `func_name`
key holds a string. -/
theorem validateReport_func_name_str (e : PyVal) (r : LocReport)
    (h : validateReport e = some r) :
    ∃ fs s, e = PyVal.dict fs ∧ dictLookup fs "func_name" = some (PyVal.str s) := by
  unfold validateReport at h
  split at h
  · rename_i fs
    refine ⟨fs, ?_⟩
    split at h
    · rename_i rp fn h1 h2
      cases fn with
      | str s => exact ⟨s, rfl, h2⟩
      | _ => simp [validateStrField] at h
    · cases h
  · cases h

theorem head_dropWhile_false (p : Char → Bool) :
    ∀ (l : List Char) (c : Char), (l.dropWhile p).head? = some c → p c = false := by
  intro l
  induction l with
  | nil => intro c h; cases h
  | cons x xs ih =>
      intro c h
      by_cases hx : p x
      · rw [List.dropWhile_cons_of_pos hx] at h
        exact ih c h
      · rw [List.dropWhile_cons_of_neg hx] at h
        simp only [List.head?_cons, Option.some.injEq] at h
        subst h
        exact Bool.of_not_eq_true hx

theorem rstripSlash_decomp (s : String) :
    ∃ n, s = rstripSlash s ++ String.mk (List.replicate n '/') := by
  refine ⟨(s.data.reverse.takeWhile (fun c => c == '/')).length, ?_⟩
  apply String.ext
  rw [String.data_append]
  have htake : s.data.reverse.takeWhile (fun c => c == '/')
      = List.replicate (s.data.reverse.takeWhile (fun c => c == '/')).length '/' := by
    apply List.eq_replicate_length.mpr
    intro b hb
    simpa using List.mem_takeWhile_imp hb
  have hsplit : s.data.reverse.takeWhile (fun c => c == '/')
      ++ s.data.reverse.dropWhile (fun c => c == '/') = s.data.reverse :=
    List.takeWhile_append_dropWhile (fun c => c == '/') s.data.reverse
  calc s.data = s.data.reverse.reverse := (List.reverse_reverse _).symm
    _ = (s.data.reverse.takeWhile (fun c => c == '/')
        ++ s.data.reverse.dropWhile (fun c => c == '/')).reverse := by rw [hsplit]
    _ = (s.data.reverse.dropWhile (fun c => c == '/')).reverse
        ++ (s.data.reverse.takeWhile (fun c => c == '/')).reverse := by
          rw [List.reverse_append]
    _ = (rstripSlash s).data
        ++ (String.mk (List.replicate (s.data.reverse.takeWhile (fun c => c == '/')).length '/')).data := by
          conv_lhs => rw [htake, List.reverse_replicate]
          rfl

theorem rstripSlash_no_trailing_slash (s : String) (c : Char)
    (h : (rstripSlash s).data.getLast? = some c) : c ≠ '/' := by
  have hh : (s.data.reverse.dropWhile (fun c => c == '/')).head? = some c := by
    rw [← List.getLast?_reverse]
    exact h
  have := head_dropWhile_false (fun c => c == '/') _ c hh
  simpa using this

theorem execute_snd_env (args : ToolCallArguments) (t : Transport) (w : World) :
    ((ReportLocsTool.execute args t w).2).env = w.env := by
  unfold ReportLocsTool.execute
  by_cases h : (argsGet args "loc_reports" (PyVal.list [])).falsy <;> simp [h]

theorem execute_fst_sent_independent (args : ToolCallArguments) (t : Transport)
    (env : Env) (s : List SentRequest) :
    (ReportLocsTool.execute args t ⟨env, s⟩).1 = (ReportLocsTool.execute args t ⟨env, []⟩).1 := by
  unfold ReportLocsTool.execute
  by_cases h : (argsGet args "loc_reports" (PyVal.list [])).falsy <;> simp [h]

/-- C1: evaluation of the code at the failing input.  The claim states that
whenever `LOC_REPORT_URL` is set and the transport is invoked, the serialized
request body is `{"loc_reports": [{"rel_file_path": <string>, "func_name":
<string>}, ...]}` in input order.  In the code, `model_dump()` leaves
`rel_file_path` a `pathlib.Path` object, which the JSON encoder used for
`json=` bodies cannot serialize: for a well-formed batch with the URL set,
and for every transport whatsoever, `execute` raises `TypeError` before any
request reaches the transport and returns the catch-all error result; the
transport log stays empty, so the claimed body is never produced. -/
theorem c1_payload_holds_path_objects_and_is_never_sent (t : Transport) :
    ReportLocsTool.execute goodArgs t ⟨env1, []⟩
      = (ToolExecResult.error ("Error processing location reports: " ++ posixPathTypeErrorMsg),
         ⟨env1, []⟩) := rfl

theorem c1_witness :
    ReportLocsTool.execute goodArgs okTransport ⟨env1, []⟩
      = (ToolExecResult.error ("Error processing location reports: " ++ posixPathTypeErrorMsg),
         ⟨env1, []⟩) :=
  c1_payload_holds_path_objects_and_is_never_sent okTransport

/-- C2: when the `loc_reports` argument is absent, `None`, or an empty
sequence, `execute` returns an error result whose message is exactly
"No location reports provided." and the world is unchanged — in particular
no outbound POST request is made. -/
theorem c2_empty_or_missing_input (args : ToolCallArguments) (t : Transport) (w : World)
    (h : argsLookup args "loc_reports" = Option.none
      ∨ argsLookup args "loc_reports" = some PyVal.none
      ∨ argsLookup args "loc_reports" = some (PyVal.list [])) :
    ReportLocsTool.execute args t w
      = (ToolExecResult.error "No location reports provided.", w) := by
  apply execute_of_falsy
  unfold argsGet
  rcases h with h | h | h <;> rw [h] <;> rfl

theorem c2_witness :
    ReportLocsTool.execute [] okTransport ⟨env1, []⟩
      = (ToolExecResult.error "No location reports provided.", ⟨env1, []⟩) :=
  c2_empty_or_missing_input [] okTransport ⟨env1, []⟩ (Or.inl rfl)

/-- C3: for every non-empty input batch containing at least one element that
does not validate against the report schema (for example one missing
`func_name`), `execute` returns an error result and no outbound POST request
is made: the whole batch is rejected, no valid subset is sent. -/
theorem c3_invalid_element_rejects_whole_batch (args : ToolCallArguments) (t : Transport)
    (w : World) (xs : List PyVal) (e : PyVal)
    (hlook : argsLookup args "loc_reports" = some (PyVal.list xs))
    (hmem : e ∈ xs) (hbad : validateReport e = Option.none) :
    (ReportLocsTool.execute args t w).1.isError = true
      ∧ ((ReportLocsTool.execute args t w).2).sent = w.sent := by
  have hget : argsGet args "loc_reports" (PyVal.list []) = PyVal.list xs := by
    unfold argsGet
    rw [hlook]
  have hxs : xs.isEmpty = false := by
    cases xs with
    | nil => cases hmem
    | cons a as => rfl
  have hf : (PyVal.list xs).falsy = false := hxs
  have hv : LocReports.model_validate (PyVal.list xs) = Option.none := by
    simp [LocReports.model_validate, validateList_eq_none_of_mem xs e hmem hbad]
  rw [execute_of_not_falsy args t w _ hget hf]
  unfold ReportLocsTool.executeTry
  rw [hv]
  simp [ToolExecResult.isError, PyExn.isHTTPError]

theorem c3_witness :
    (ReportLocsTool.execute [("loc_reports", missingFuncBatch)] okTransport ⟨env1, []⟩).1.isError
        = true
      ∧ ((ReportLocsTool.execute [("loc_reports", missingFuncBatch)] okTransport
          ⟨env1, []⟩).2).sent = [] :=
  c3_invalid_element_rejects_whole_batch [("loc_reports", missingFuncBatch)] okTransport
    ⟨env1, []⟩ [PyVal.dict [("rel_file_path", PyVal.str "a.py")]]
    (PyVal.dict [("rel_file_path", PyVal.str "a.py")]) rfl (List.Mem.head _) rfl

/-- C4: for every valid non-empty batch, if `LOC_REPORT_URL` is unset or the
empty string, `execute` returns an error result whose message is exactly
"LOC_REPORT_URL environment variable not set." and the world is unchanged —
zero outbound POST requests are made. -/
theorem c4_missing_configuration (args : ToolCallArguments) (t : Transport) (w : World)
    (v : PyVal) (b : LocReports)
    (hlook : argsLookup args "loc_reports" = some v) (hf : v.falsy = false)
    (hv : LocReports.model_validate v = some b)
    (henv : getenv w.env "LOC_REPORT_URL" = Option.none
      ∨ getenv w.env "LOC_REPORT_URL" = some "") :
    ReportLocsTool.execute args t w
      = (ToolExecResult.error "LOC_REPORT_URL environment variable not set.", w) := by
  have hget : argsGet args "loc_reports" (PyVal.list []) = v := by
    unfold argsGet
    rw [hlook]
  rw [execute_of_not_falsy args t w v hget hf]
  unfold ReportLocsTool.executeTry
  rw [hv]
  rcases henv with h | h <;> rw [h] <;> simp [String.isEmpty]

theorem c4_witness :
    ReportLocsTool.execute goodArgs okTransport ⟨[], []⟩
      = (ToolExecResult.error "LOC_REPORT_URL environment variable not set.", ⟨[], []⟩) :=
  c4_missing_configuration goodArgs okTransport ⟨[], []⟩ goodBatch ⟨[⟨"a.py", "foo"⟩]⟩
    rfl rfl rfl (Or.inl rfl)

/-- C5: for every base URL, the resolved endpoint is the base URL with all
trailing `/` characters removed followed by `"/report"`: the base URL
decomposes as the stripped prefix plus a run of trailing slashes, the
stripped prefix never ends in `/`, and in particular
`"https://example.test/"` resolves to `"https://example.test/report"`
with no double slash. -/
theorem c5_endpoint_resolution :
    (∀ s : String, resolveEndpoint s = rstripSlash s ++ "/report"
      ∧ (∃ n, s = rstripSlash s ++ String.mk (List.replicate n '/'))
      ∧ ∀ c, (rstripSlash s).data.getLast? = some c → c ≠ '/')
    ∧ resolveEndpoint "https://example.test/" = "https://example.test/report" := by
  refine ⟨fun s => ⟨rfl, rstripSlash_decomp s, fun c hc => rstripSlash_no_trailing_slash s c hc⟩, ?_⟩
  rfl

/-- C6: evaluation of the code at the failing input.  The claim states that
for a valid batch with configuration set the result is classified exactly by
the transport outcome (2xx → the fixed success output).  With a transport
that answers HTTP 200 to every request, `execute` nevertheless returns an
error result — the `TypeError` raised while JSON-encoding the
`pathlib.Path`-holding payload preempts the request, the transport log stays
empty, and no success output is ever produced.  (No exception propagates:
the result is still a single error result, as the claim's
no-escape clause says.) -/
theorem c6_result_not_classified_by_transport :
    (ReportLocsTool.execute goodArgs okTransport ⟨env1, []⟩).1
        = ToolExecResult.error ("Error processing location reports: " ++ posixPathTypeErrorMsg)
      ∧ (ReportLocsTool.execute goodArgs okTransport ⟨env1, []⟩).1.isOutput = false
      ∧ ((ReportLocsTool.execute goodArgs okTransport ⟨env1, []⟩).2).sent = [] :=
  ⟨rfl, rfl, rfl⟩

/-- C7: every invocation of `execute`, for every arguments mapping,
environment and transport outcome, terminates returning exactly one
`ToolExecResult`, which carries exactly one of the two fields: an output
string (success) or an error string (failure) — never both, never neither. -/
theorem c7_exactly_one_result_field (args : ToolCallArguments) (t : Transport) (w : World) :
    ((ReportLocsTool.execute args t w).1.isOutput = true
      ∧ (ReportLocsTool.execute args t w).1.isError = false)
    ∨ ((ReportLocsTool.execute args t w).1.isOutput = false
      ∧ (ReportLocsTool.execute args t w).1.isError = true) := by
  cases hr : (ReportLocsTool.execute args t w).1 <;>
    simp [ToolExecResult.isOutput, ToolExecResult.isError]

theorem c7_witness :
    (((ReportLocsTool.execute [] okTransport ⟨[], []⟩).1.isOutput = true
      ∧ (ReportLocsTool.execute [] okTransport ⟨[], []⟩).1.isError = false)
    ∨ ((ReportLocsTool.execute [] okTransport ⟨[], []⟩).1.isOutput = false
      ∧ (ReportLocsTool.execute [] okTransport ⟨[], []⟩).1.isError = true)) :=
  c7_exactly_one_result_field [] okTransport ⟨[], []⟩

/-- C8 (amended): `execute` is deterministic and stateless across
invocations: running the same call twice in sequence — the second invocation
starting from the world the first one left — yields the same result both
times, and the environment is never written by the call.  (The original
claim additionally said the common result is a success result; that part
fails, see the counterexample: the payload serialization defect makes the
common result an error.) -/
theorem c8_deterministic_and_stateless (args : ToolCallArguments) (t : Transport) (w : World) :
    (ReportLocsTool.execute args t ((ReportLocsTool.execute args t w).2)).1
        = (ReportLocsTool.execute args t w).1
      ∧ ((ReportLocsTool.execute args t w).2).env = w.env := by
  refine ⟨?_, execute_snd_env args t w⟩
  rcases hq : (ReportLocsTool.execute args t w).2 with ⟨e2, s2⟩
  have he : e2 = w.env := by
    have h := execute_snd_env args t w
    rw [hq] at h
    exact h
  subst he
  exact (execute_fst_sent_independent args t w.env s2).trans
    (execute_fst_sent_independent args t w.env w.sent).symm

theorem c8_witness :
    (ReportLocsTool.execute goodArgs okTransport
        ((ReportLocsTool.execute goodArgs okTransport ⟨env1, []⟩).2)).1
        = (ReportLocsTool.execute goodArgs okTransport ⟨env1, []⟩).1
      ∧ ((ReportLocsTool.execute goodArgs okTransport ⟨env1, []⟩).2).env = env1 :=
  c8_deterministic_and_stateless goodArgs okTransport ⟨env1, []⟩

/-- C8 counterexample: with identical valid arguments, the configuration
set, and a transport that returns HTTP 200 both times, neither the first nor
the second invocation produces a success result — refuting the claim that
the two invocations "produce the same success result". -/
theorem c8_counterexample_no_success_result :
    (ReportLocsTool.execute goodArgs okTransport ⟨env1, []⟩).1.isOutput = false
      ∧ (ReportLocsTool.execute goodArgs okTransport
          ((ReportLocsTool.execute goodArgs okTransport ⟨env1, []⟩).2)).1.isOutput = false :=
  ⟨rfl, rfl⟩

/-- C9 (amended): for every batch that passes validation, every element
carries a `func_name` key holding a string — the field is present and
well-typed — but emptiness is not checked: a batch whose element has
`func_name` equal to the empty string passes validation. -/
theorem c9_func_name_is_string_empty_allowed :
    (∀ (xs : List PyVal) (rs : List LocReport), validateList xs = some rs →
      ∀ e ∈ xs, ∃ fs s, e = PyVal.dict fs ∧ dictLookup fs "func_name" = some (PyVal.str s))
    ∧ LocReports.model_validate emptyFuncBatch = some ⟨[⟨"a.py", ""⟩]⟩ := by
  constructor
  · intro xs
    induction xs with
    | nil => intro rs h e he; cases he
    | cons x xs ih =>
        intro rs h e he
        unfold validateList at h
        rcases h1 : validateReport x with _ | r <;> rw [h1] at h
        · cases h
        rcases h2 : validateList xs with _ | rs' <;> rw [h2] at h
        · cases h
        rcases List.mem_cons.mp he with rfl | hmem
        · exact validateReport_func_name_str e r h1
        · exact ih rs' h2 e hmem
  · rfl

/-- C9 counterexample: a batch whose single element has an empty `func_name`
string is accepted by validation, not rejected — `execute` on that batch
proceeds past validation all the way to the configuration check. -/
theorem c9_counterexample_empty_func_name_accepted :
    LocReports.model_validate emptyFuncBatch = some ⟨[⟨"a.py", ""⟩]⟩
      ∧ (ReportLocsTool.execute [("loc_reports", emptyFuncBatch)] okTransport ⟨[], []⟩).1
        = ToolExecResult.error "LOC_REPORT_URL environment variable not set." :=
  ⟨rfl, rfl⟩

/-- C10: when the `loc_reports` argument is present but bound to any falsy
value — such as `0`, `""`, `False`, or an empty mapping — `execute` returns
the empty-input error "No location reports provided." rather than a schema
validation error, and the world is unchanged: no outbound request is made. -/
theorem c10_falsy_argument_is_empty_input (args : ToolCallArguments) (v : PyVal)
    (t : Transport) (w : World)
    (hlook : argsLookup args "loc_reports" = some v) (hf : v.falsy = true) :
    ReportLocsTool.execute args t w
      = (ToolExecResult.error "No location reports provided.", w) := by
  apply execute_of_falsy
  unfold argsGet
  rw [hlook]
  exact hf

theorem c10_witness :
    ReportLocsTool.execute [("loc_reports", PyVal.int 0)] okTransport ⟨env1, []⟩
      = (ToolExecResult.error "No location reports provided.", ⟨env1, []⟩) :=
  c10_falsy_argument_is_empty_input [("loc_reports", PyVal.int 0)] (PyVal.int 0)
    okTransport ⟨env1, []⟩ rfl rfl
